import Mathlib

/-!
Shallow embedding of `src/consulate/api/lock.py`.

The `Lock` object's mutable attributes (`_session_id`, `_ttl_timer`, `_item`,
`_prefix`) become an explicit `LockState` record.  The external collaborator
(session endpoint and KV adapter) is modelled by a `Collab` record fixing the
results its calls return during one acquisition, and every collaborator call
the code issues is recorded in an `Event` trace.  Fallible paths return an
explicit error value instead of raising.
-/

namespace Consulate

/-- The `StoppableThread` renewal timer as seen from the lock: its `active`
flag and the captured renewal interval (`timer_ttl`). -/
structure TimerState where
  active : Bool
  interval : Int
  deriving DecidableEq, Repr

/-- The mutable state of a `Lock` object: `_session_id`, `_ttl_timer`,
`_item` and `_prefix`.  `_item` starts as a fresh uuid string and is set to
`None` by `_release`, hence `Option String`. -/
structure LockState where
  session_id : Option String
  ttl_timer : Option TimerState
  item : Option String
  prefix_ : String
  deriving DecidableEq, Repr

/-- `Lock.DEFAULT_PREFIX = 'consulate/locks'`. -/
def DEFAULT_PREFIX : String := "consulate/locks"

/-- State built by `Lock.__init__`: no session, no timer, `_item` a fresh
uuid (passed in as `uuid0`), `_prefix` the default. -/
def initState (uuid0 : String) : LockState :=
  { session_id := none, ttl_timer := none, item := some uuid0,
    prefix_ := DEFAULT_PREFIX }

/-- Python `v or dflt` on an optional string: `None` and `''` are falsy. -/
def pyOrStr (v : Option String) (dflt : String) : String :=
  match v with
  | none => dflt
  | some s => if s = "" then dflt else s

/-- Python `'/'.join([a, b])`. -/
def joinPath (a b : String) : String := a ++ "/" ++ b

/-- Collaborator calls issued by the lock code, in order. -/
inductive Event where
  | sessionCreate (behavior : Option String) (ttl : Option Int)
  | kvPutAcquire (path : String) (sessionId : Option String) (value : Option String)
  | kvPutRelease (path : Option String) (sessionId : Option String)
  | kvDelete (path : Option String)
  | sessionDestroy (sessionId : Option String)
  | timerStart (interval : Int)
  deriving DecidableEq, Repr

/-- Results the external collaborator returns during one `_acquire` call:
the session id produced by `session.create` and the boolean result of the
conditional KV put. -/
structure Collab where
  createResult : String
  putAcquireResult : Bool
  deriving DecidableEq, Repr

/-- Exceptions `_acquire` can raise: `ValueError` for a ttl below the
minimum, `exceptions.LockFailure` when the conditional write fails. -/
inductive AcquireError where
  | invalidTTL
  | lockFailure
  deriving DecidableEq, Repr

/-- Outcome of `_acquire`: the lock state after the call (mutations happen
before the raise, so they are visible even on error), the trace of
collaborator calls, and the error if one was raised. -/
structure AcquireResult where
  state : LockState
  events : List Event
  error : Option AcquireError
  deriving DecidableEq, Repr

/-- Body of `_acquire` after the ttl validation: create the session, compute
`_item`, attempt the conditional put; on failure destroy the session and
raise `LockFailure`; on success with a ttl start the renewal timer when
`ttl - renew_before_ttl > 0`. -/
def lockAcquireBody (st : LockState) (key value behavior : Option String)
    (ttl : Option Int) (renew_before_ttl : Int) (fresh : String)
    (env : Collab) : AcquireResult :=
  let sid := env.createResult
  let item := joinPath st.prefix_ (pyOrStr key fresh)
  let st1 := { st with session_id := some sid, item := some item }
  let evs := [Event.sessionCreate behavior ttl,
              Event.kvPutAcquire item (some sid) value]
  if env.putAcquireResult then
    match ttl with
    | some t =>
      let timer_ttl := t - renew_before_ttl
      if 0 < timer_ttl then
        { state := { st1 with ttl_timer := some { active := true, interval := timer_ttl } },
          events := evs ++ [Event.timerStart timer_ttl],
          error := none }
      else
        { state := st1, events := evs, error := none }
    | none => { state := st1, events := evs, error := none }
  else
    { state := st1,
      events := evs ++ [Event.sessionDestroy (some sid)],
      error := some AcquireError.lockFailure }

/-- `Lock._acquire`: if a ttl is supplied and below 10, raise `ValueError`
before any collaborator call; otherwise run the acquisition body. -/
def lock_acquire (st : LockState) (key value behavior : Option String)
    (ttl : Option Int) (renew_before_ttl : Int) (fresh : String)
    (env : Collab) : AcquireResult :=
  match ttl with
  | some t =>
    if t < 10 then { state := st, events := [], error := some AcquireError.invalidTTL }
    else lockAcquireBody st key value behavior (some t) renew_before_ttl fresh env
  | none => lockAcquireBody st key value behavior none renew_before_ttl fresh env

/-- Outcome of `_release`: either the cleanup ran (new state plus the trace
of collaborator calls), or the unconditional `self._ttl_timer.active = False`
dereferenced a `None` timer and raised `AttributeError`. -/
inductive ReleaseResult where
  | ok (state : LockState) (events : List Event)
  | nullTimerFault
  deriving DecidableEq, Repr

/-- `Lock._release`: set the timer's active flag to `False` (faulting when
`_ttl_timer` is `None`), issue the release put, delete the key, destroy the
session, then reset `_item` and `_session_id` to `None`.  The timer object
itself stays referenced by `_ttl_timer`. -/
def lock_release (st : LockState) : ReleaseResult :=
  match st.ttl_timer with
  | none => ReleaseResult.nullTimerFault
  | some tm =>
    ReleaseResult.ok
      { st with ttl_timer := some { tm with active := false },
                item := none, session_id := none }
      [Event.kvPutRelease st.item st.session_id,
       Event.kvDelete st.item,
       Event.sessionDestroy st.session_id]

/-- The `Lock.key` property: returns `self._item`. -/
def lock_key (st : LockState) : Option String := st.item

/-- `Lock.prefix(value)`: `self._prefix = value or ''`. -/
def prefix_set (st : LockState) (value : Option String) : LockState :=
  { st with prefix_ := pyOrStr value "" }

/-- What the caller's critical-section code does inside the `with` block. -/
inductive BodyOutcome where
  | normal
  | raised
  deriving DecidableEq, Repr

/-- Outcome of one use of the `acquire` context manager. -/
structure ContextResult where
  state : LockState
  events : List Event
  acquireError : Option AcquireError
  bodyExnPropagated : Bool
  releaseNullFault : Bool
  deriving DecidableEq, Repr

/-- `Lock.acquire` as a `contextlib.contextmanager`: `self._acquire(...)`,
then `yield`, then `self._release()`.  The generator has no try/finally
around its `yield`, so an exception thrown into it from the caller's body
propagates from the yield point and the `self._release()` statement is never
reached. -/
def lock_acquire_context (st : LockState) (key value behavior : Option String)
    (ttl : Option Int) (renew_before_ttl : Int) (fresh : String)
    (env : Collab) (body : BodyOutcome) : ContextResult :=
  let a := lock_acquire st key value behavior ttl renew_before_ttl fresh env
  match a.error with
  | some e =>
    { state := a.state, events := a.events, acquireError := some e,
      bodyExnPropagated := false, releaseNullFault := false }
  | none =>
    match body with
    | BodyOutcome.raised =>
      { state := a.state, events := a.events, acquireError := none,
        bodyExnPropagated := true, releaseNullFault := false }
    | BodyOutcome.normal =>
      match lock_release a.state with
      | ReleaseResult.ok st2 evs =>
        { state := st2, events := a.events ++ evs, acquireError := none,
          bodyExnPropagated := false, releaseNullFault := false }
      | ReleaseResult.nullTimerFault =>
        { state := a.state, events := a.events, acquireError := none,
          bodyExnPropagated := false, releaseNullFault := true }

/-- Observable steps of the renewal loop. -/
inductive RenewEvent where
  | renewCall (sessionId : Option String) (ok : Bool)
  | sleepFor (secs : Int)
  | ceasedLog
  deriving DecidableEq, Repr

/-- The `renew` loop body of `_acquire`:
`while self._ttl_timer.active: if self._session.renew(sid): time.sleep(timer_ttl)`,
followed by a "ceasing renewal" log once the loop exits.  `active i` gives
the timer flag as observed at iteration `i`, `renewOk i` the result of the
`i`-th renew call; `fuel` bounds how many iterations we unfold. -/
def renew_loop (active : Nat → Bool) (renewOk : Nat → Bool)
    (sid : Option String) (timer_ttl : Int) : Nat → Nat → List RenewEvent
  | 0, _ => []
  | Nat.succ fuel, i =>
    if active i then
      RenewEvent.renewCall sid (renewOk i) ::
        (if renewOk i then
          RenewEvent.sleepFor timer_ttl :: renew_loop active renewOk sid timer_ttl fuel (i + 1)
         else
          renew_loop active renewOk sid timer_ttl fuel (i + 1))
    else [RenewEvent.ceasedLog]

/-- Project the post-state out of a release outcome (`none` on the null-timer
fault). -/
def release_state (r : ReleaseResult) : Option LockState :=
  match r with
  | ReleaseResult.ok st _ => some st
  | ReleaseResult.nullTimerFault => none

/-- Concrete evaluation point: a handle that went through an earlier ttl
cycle and so still references a stale, inactive timer, with item and session
already reset by that cycle's release. -/
def staleTimerState : LockState :=
  { session_id := none, ttl_timer := some { active := false, interval := 25 },
    item := none, prefix_ := "consulate/locks" }

/-- Concrete evaluation point: a collaborator whose conditional put fails. -/
def envPutFails : Collab :=
  { createResult := "s2", putAcquireResult := false }

/-- C1: at a successful acquisition (no ttl) whose critical-section body
raises, the context manager lets the exception propagate without running any
release step: the generator has no try/finally around its yield, so the
event trace holds only the two acquire calls (no release put, no delete, no
session destroy) and the state still holds the session. -/
theorem c1_body_raise_skips_release :
    lock_acquire_context (initState "u0") (some "my-key") none none none 5 "f0"
        { createResult := "s1", putAcquireResult := true } BodyOutcome.raised =
      { state := { session_id := some "s1", ttl_timer := none,
                   item := some "consulate/locks/my-key",
                   prefix_ := "consulate/locks" },
        events := [Event.sessionCreate none none,
                   Event.kvPutAcquire "consulate/locks/my-key" (some "s1") none],
        acquireError := none, bodyExnPropagated := true,
        releaseNullFault := false } := rfl

/-- C2: on a fresh handle, `_acquire(key="job-1")` without a ttl succeeds,
but the subsequent `_release` hits the unconditional
`self._ttl_timer.active = False` with `_ttl_timer` still `None` and faults
before any cleanup, so the round trip never resets the held state. -/
theorem c2_release_after_plain_acquire_faults :
    (lock_acquire (initState "u0") (some "job-1") none none none 5 "f0"
        { createResult := "s1", putAcquireResult := true }).error = none ∧
    lock_release (lock_acquire (initState "u0") (some "job-1") none none none 5 "f0"
        { createResult := "s1", putAcquireResult := true }).state =
      ReleaseResult.nullTimerFault := ⟨rfl, rfl⟩

/-- C3: `_release` on an unheld, freshly constructed handle dereferences the
`None` timer (`self._ttl_timer.active = False`) and raises, instead of being
a no-op or an explicit not-held error. -/
theorem c3_release_unheld_faults :
    lock_release (initState "u0") = ReleaseResult.nullTimerFault := rfl

/-- C4: with the active flag set and every renew call returning false, the
renewal loop keeps issuing renew calls (it only skips the sleep): three
unfolded iterations yield three failed renew calls and no loop exit. -/
theorem c4_failed_renew_busy_loops :
    renew_loop (fun _ => true) (fun _ => false) (some "s1") 25 3 0 =
      [RenewEvent.renewCall (some "s1") false,
       RenewEvent.renewCall (some "s1") false,
       RenewEvent.renewCall (some "s1") false] := rfl

/-- C5: when the conditional acquire write fails (and the ttl passed
validation), `_acquire` raises `LockFailure` and its collaborator trace is
exactly the session create, the failed put, and one destroy of the session
created in this same acquisition; no timer is started. -/
theorem c5_put_failure_destroys_once (st : LockState)
    (key value behavior : Option String) (ttl : Option Int) (rbt : Int)
    (fresh : String) (env : Collab) (r : AcquireResult)
    (hr : r = lock_acquire st key value behavior ttl rbt fresh env)
    (hput : env.putAcquireResult = false)
    (httl : ∀ t, ttl = some t → 10 ≤ t) :
    r.error = some AcquireError.lockFailure ∧
    r.events = [Event.sessionCreate behavior ttl,
                Event.kvPutAcquire (joinPath st.prefix_ (pyOrStr key fresh))
                  (some env.createResult) value,
                Event.sessionDestroy (some env.createResult)] := by
  subst hr
  cases ttl with
  | none => simp [lock_acquire, lockAcquireBody, hput]
  | some t =>
    have ht := httl t rfl
    simp [lock_acquire, lockAcquireBody, hput, not_lt.mpr ht]

/-- C5 witness: concrete failed write destroys the created session once and
raises lock failure. -/
theorem c5_witness :
    (lock_acquire (initState "u0") (some "k") none none none 5 "f0"
        { createResult := "s1", putAcquireResult := false }).error =
      some AcquireError.lockFailure ∧
    (lock_acquire (initState "u0") (some "k") none none none 5 "f0"
        { createResult := "s1", putAcquireResult := false }).events =
      [Event.sessionCreate none none,
       Event.kvPutAcquire "consulate/locks/k" (some "s1") none,
       Event.sessionDestroy (some "s1")] :=
  c5_put_failure_destroys_once (initState "u0") (some "k") none none none 5 "f0"
    { createResult := "s1", putAcquireResult := false } _ rfl rfl
    (fun _ h => Option.noConfusion h)

/-- C6: a supplied ttl below 10 makes `_acquire` raise the invalid-parameter
error with an empty collaborator trace and an unchanged state: no session is
created and no KV write is attempted. -/
theorem c6_ttl_below_min (st : LockState) (key value behavior : Option String)
    (t : Int) (rbt : Int) (fresh : String) (env : Collab) (ht : t < 10) :
    lock_acquire st key value behavior (some t) rbt fresh env =
      { state := st, events := [], error := some AcquireError.invalidTTL } := by
  simp [lock_acquire, ht]

/-- C6 witness: ttl = 5 fails locally with no collaborator calls. -/
theorem c6_witness :
    (5 : Int) < 10 ∧
    lock_acquire (initState "u0") none none none (some 5) 5 "f0"
        { createResult := "s1", putAcquireResult := true } =
      { state := initState "u0", events := [], error := some AcquireError.invalidTTL } :=
  ⟨by decide, c6_ttl_below_min (initState "u0") none none none 5 5 "f0"
    { createResult := "s1", putAcquireResult := true } (by decide)⟩

/-- C7: for a successful acquisition with a valid ttl, the renewal interval
is `ttl - renew_before_ttl`; when it is strictly positive a renewal timer
with exactly that cadence is started, and otherwise no timer event occurs
and the timer field is left untouched. -/
theorem c7_renewal_cadence (st : LockState) (key value behavior : Option String)
    (t rbt : Int) (fresh : String) (env : Collab) (r : AcquireResult)
    (hr : r = lock_acquire st key value behavior (some t) rbt fresh env)
    (ht : 10 ≤ t) (hput : env.putAcquireResult = true) :
    (0 < t - rbt →
      r = { state :=
              { st with
                session_id := some env.createResult,
                item := some (joinPath st.prefix_ (pyOrStr key fresh)),
                ttl_timer := some { active := true, interval := t - rbt } },
            events := [Event.sessionCreate behavior (some t),
                       Event.kvPutAcquire (joinPath st.prefix_ (pyOrStr key fresh))
                         (some env.createResult) value,
                       Event.timerStart (t - rbt)],
            error := none }) ∧
    (t - rbt ≤ 0 →
      r = { state :=
              { st with
                session_id := some env.createResult,
                item := some (joinPath st.prefix_ (pyOrStr key fresh)) },
            events := [Event.sessionCreate behavior (some t),
                       Event.kvPutAcquire (joinPath st.prefix_ (pyOrStr key fresh))
                         (some env.createResult) value],
            error := none }) := by
  subst hr
  constructor
  · intro hpos
    simp [lock_acquire, lockAcquireBody, hput, not_lt.mpr ht, hpos]
  · intro hle
    simp [lock_acquire, lockAcquireBody, hput, not_lt.mpr ht, not_lt.mpr hle]

/-- C7 witness: ttl = 30, renew_before_ttl = 5 starts a timer with cadence
25. -/
theorem c7_witness :
    lock_acquire (initState "u0") (some "job") none none (some 30) 5 "f0"
        { createResult := "s1", putAcquireResult := true } =
      { state := { session_id := some "s1",
                   ttl_timer := some { active := true, interval := 25 },
                   item := some "consulate/locks/job",
                   prefix_ := "consulate/locks" },
        events := [Event.sessionCreate none (some 30),
                   Event.kvPutAcquire "consulate/locks/job" (some "s1") none,
                   Event.timerStart 25],
        error := none } :=
  (c7_renewal_cadence (initState "u0") (some "job") none none 30 5 "f0"
    { createResult := "s1", putAcquireResult := true } _ rfl (by decide) rfl).1
    (by decide)

/-- C8 counterexample: after `_release` of a ttl-based acquisition
(ttl = 30, renew_before_ttl = 5) the handle still holds the renewal-task
reference: `ttl_timer` is `some` (now inactive), not `none`. -/
theorem c8_counterexample :
    (release_state (lock_release (lock_acquire (initState "u0") (some "k") none none
          (some 30) 5 "f0" { createResult := "s1", putAcquireResult := true }).state)).map
        LockState.ttl_timer =
      some (some { active := false, interval := 25 }) := rfl

/-- C8 amended: `_release` clears the timer's active flag but retains the
task handle in `_ttl_timer`; from any state holding a timer, release
succeeds and leaves `ttl_timer = some` with `active := false`; the field is
`none` only on a handle that has not yet performed a ttl-based acquisition
(such as the initial state). -/
theorem c8_release_retains_inactive_task (st : LockState) (tm : TimerState)
    (h : st.ttl_timer = some tm) (u : String) :
    lock_release st = ReleaseResult.ok
        { st with ttl_timer := some { active := false, interval := tm.interval },
                  item := none, session_id := none }
        [Event.kvPutRelease st.item st.session_id,
         Event.kvDelete st.item,
         Event.sessionDestroy st.session_id] ∧
    (initState u).ttl_timer = none := by
  constructor
  · simp [lock_release, h]
  · rfl

/-- C8 amended witness: releasing a state that holds an active timer keeps
an inactive timer reference. -/
theorem c8_amended_witness :
    lock_release { session_id := some "s1",
                   ttl_timer := some { active := true, interval := 25 },
                   item := some "consulate/locks/k",
                   prefix_ := "consulate/locks" } =
      ReleaseResult.ok
        { session_id := none, ttl_timer := some { active := false, interval := 25 },
          item := none, prefix_ := "consulate/locks" }
        [Event.kvPutRelease (some "consulate/locks/k") (some "s1"),
         Event.kvDelete (some "consulate/locks/k"),
         Event.sessionDestroy (some "s1")] ∧
    (initState "u0").ttl_timer = none :=
  c8_release_retains_inactive_task
    { session_id := some "s1", ttl_timer := some { active := true, interval := 25 },
      item := some "consulate/locks/k", prefix_ := "consulate/locks" }
    { active := true, interval := 25 } rfl "u0"

/-- C9: `prefix(value)` writes only the `_prefix` field (`None` stored as
the empty string, a string stored as given) and leaves session, item and
timer untouched; the stored value is used on the next acquire, whose
identity is `prefix + "/" + (key or fresh token)`. -/
theorem c9_prefix_pure_setter (st : LockState) (v : Option String) (s : String)
    (key value behavior : Option String) (rbt : Int) (fresh : String)
    (env : Collab) :
    (prefix_set st none).prefix_ = "" ∧
    (prefix_set st (some s)).prefix_ = s ∧
    (prefix_set st v).session_id = st.session_id ∧
    (prefix_set st v).item = st.item ∧
    (prefix_set st v).ttl_timer = st.ttl_timer ∧
    (lock_acquire (prefix_set st v) key value behavior none rbt fresh env).state.item =
      some (joinPath (pyOrStr v "") (pyOrStr key fresh)) := by
  refine ⟨rfl, ?_, rfl, rfl, rfl, ?_⟩
  · by_cases hs : s = "" <;> simp [prefix_set, pyOrStr, hs]
  · by_cases hp : env.putAcquireResult = true <;>
      simp [lock_acquire, lockAcquireBody, prefix_set, hp]

/-- C10: after a failed conditional acquire write the handle keeps the
destroyed session's id in `_session_id` and the attempted path in `_item`
(the error is raised without resetting either), the `key` property returns
the attempted path, and a subsequent `_release` (which proceeds whenever a
timer reference is present) issues its release put and session destroy
against that already-destroyed session id. -/
theorem c10_failed_acquire_leaves_stale_state (st : LockState)
    (key value behavior : Option String) (ttl : Option Int) (rbt : Int)
    (fresh : String) (env : Collab) (tm : TimerState) (r : AcquireResult)
    (hr : r = lock_acquire st key value behavior ttl rbt fresh env)
    (hput : env.putAcquireResult = false)
    (httl : ∀ t, ttl = some t → 10 ≤ t)
    (htm : st.ttl_timer = some tm) :
    r.error = some AcquireError.lockFailure ∧
    Event.sessionDestroy (some env.createResult) ∈ r.events ∧
    r.state.session_id = some env.createResult ∧
    r.state.item = some (joinPath st.prefix_ (pyOrStr key fresh)) ∧
    lock_key r.state = some (joinPath st.prefix_ (pyOrStr key fresh)) ∧
    lock_release r.state = ReleaseResult.ok
        { r.state with
          ttl_timer := some { active := false, interval := tm.interval },
          item := none,
          session_id := none }
        [Event.kvPutRelease (some (joinPath st.prefix_ (pyOrStr key fresh)))
           (some env.createResult),
         Event.kvDelete (some (joinPath st.prefix_ (pyOrStr key fresh))),
         Event.sessionDestroy (some env.createResult)] := by
  have hbody : lock_acquire st key value behavior ttl rbt fresh env =
      { state :=
          { st with
            session_id := some env.createResult,
            item := some (joinPath st.prefix_ (pyOrStr key fresh)) },
        events := [Event.sessionCreate behavior ttl,
                   Event.kvPutAcquire (joinPath st.prefix_ (pyOrStr key fresh))
                     (some env.createResult) value,
                   Event.sessionDestroy (some env.createResult)],
        error := some AcquireError.lockFailure } := by
    cases ttl with
    | none => simp [lock_acquire, lockAcquireBody, hput]
    | some t =>
      have ht := httl t rfl
      simp [lock_acquire, lockAcquireBody, hput, not_lt.mpr ht]
  subst hr
  rw [hbody]
  refine ⟨rfl, by simp, rfl, rfl, rfl, ?_⟩
  simp [lock_release, htm]

/-- C10 witness: a handle that still holds a (stale, inactive) timer from an
earlier cycle, after a failed acquire, retains the destroyed session id and
the attempted path, and its release targets the destroyed session. -/
theorem c10_witness :
    (lock_acquire staleTimerState (some "k") none none none 5 "f0" envPutFails).error =
      some AcquireError.lockFailure ∧
    Event.sessionDestroy (some "s2") ∈
      (lock_acquire staleTimerState (some "k") none none none 5 "f0" envPutFails).events ∧
    (lock_acquire staleTimerState (some "k") none none none 5 "f0"
        envPutFails).state.session_id = some "s2" ∧
    (lock_acquire staleTimerState (some "k") none none none 5 "f0"
        envPutFails).state.item = some "consulate/locks/k" ∧
    lock_key (lock_acquire staleTimerState (some "k") none none none 5 "f0"
        envPutFails).state = some "consulate/locks/k" ∧
    lock_release (lock_acquire staleTimerState (some "k") none none none 5 "f0"
        envPutFails).state =
      ReleaseResult.ok staleTimerState
        [Event.kvPutRelease (some "consulate/locks/k") (some "s2"),
         Event.kvDelete (some "consulate/locks/k"),
         Event.sessionDestroy (some "s2")] :=
  c10_failed_acquire_leaves_stale_state staleTimerState
    (some "k") none none none 5 "f0" envPutFails
    { active := false, interval := 25 } _ rfl rfl
    (fun _ h => Option.noConfusion h) rfl

end Consulate
